import Mathlib

/-!
Verification of the seat-reservation and ticket-lifecycle core of a train
booking service (FastAPI + SQLAlchemy).  The embedding below is a shallow
model of the Python source:

* `SeatRepository` (src/app/repositories/ticket_repository.py) becomes pure
  state-passing functions over a store `Nat → Option Seat`; the SQL session
  (select / commit / refresh) is modelled as reading and writing that store,
  and a commit-time database exception is modelled by an explicit `DbFault`
  parameter (the Python code catches the exception and rolls back, which
  restores the pre-transaction store).
* `DiscountService` / `TicketService.calculate_price`
  (src/app/services/ticket_service.py): Python floats are modelled as exact
  rationals `ℚ`; the discount dictionary becomes an association list with
  `.get(key, 0.0)` semantics.
* The HTTP handlers `create_ticket` and `delete_ticket`
  (src/app/api/tickets.py) become functions from an application state to an
  `Except` result plus a new state; each `raise HTTPException` branch is an
  `ApiError` constructor.

One point of un-intuitive faithfulness: `SeatService`
(src/app/services/ticket_service.py) defines wrappers for `reserve_seat`,
`release_seat`, `get_seat` ... but *no* `try_reserve_seat` method, while the
handler `create_ticket` (src/app/api/tickets.py line 273) evaluates
`seat_service.try_reserve_seat(...)`.  In Python this attribute access raises
`AttributeError` on every request that reaches it, outside any try/except in
the handler, so the model of the create endpoint fails with
`ApiError.attributeError` there.
-/

namespace TrainTickets

/-- The two availability flags of the `Seat` ORM model
(src/app/models/tickets.py): `is_available` (bookable) and `is_reserved`
(currently held). -/
structure Seat where
  is_available : Bool
  is_reserved : Bool
deriving DecidableEq, Repr

/-- The seats table, keyed by primary key `Seat.id`. -/
def SeatStore : Type := Nat → Option Seat

/-- Write one row of the seats table (the effect of mutating the ORM object
and committing). -/
def setSeat (st : SeatStore) (i : Nat) (s : Seat) : SeatStore :=
  fun j => if j = i then some s else st j

/-- `SeatRepository.get_seat`: `SELECT ... WHERE Seat.id = seat_id`,
`scalar_one_or_none`. -/
def get_seat (st : SeatStore) (seat_id : Nat) : Option Seat :=
  st seat_id

/-- `SeatRepository.update_seat_availability`: if the seat exists, set
`is_available` (alone) and commit; returns the seat (`None` if absent). -/
def update_seat_availability (st : SeatStore) (seat_id : Nat) (b : Bool) :
    Option Seat × SeatStore :=
  match st seat_id with
  | some s =>
      let s2 : Seat := { s with is_available := b }
      (some s2, setSeat st seat_id s2)
  | none => (none, st)

/-- `SeatRepository.reserve_seat`: if the seat exists, set
`is_reserved = True` and `is_available = False` together and commit; returns
the seat (`None` if absent). -/
def reserve_seat (st : SeatStore) (seat_id : Nat) : Option Seat × SeatStore :=
  match st seat_id with
  | some _ =>
      let s2 : Seat := ⟨false, true⟩
      (some s2, setSeat st seat_id s2)
  | none => (none, st)

/-- `SeatRepository.release_seat`: if the seat exists, set
`is_reserved = False` and `is_available = True` together and commit; returns
the seat (`None` if absent). -/
def release_seat (st : SeatStore) (seat_id : Nat) : Option Seat × SeatStore :=
  match st seat_id with
  | some _ =>
      let s2 : Seat := ⟨true, false⟩
      (some s2, setSeat st seat_id s2)
  | none => (none, st)

/-- Where, if anywhere, the database raises inside
`SeatRepository.try_reserve_seat`: at the `SELECT ... FOR UPDATE`, or at the
`commit()`.  The Python `except Exception` clause catches either, calls
`rollback()` (discarding the in-session flag writes, so the stored state is
unchanged) and returns `False`. -/
inductive DbFault where
  | ok
  | atSelect
  | atCommit
deriving DecidableEq, Repr

/-- `SeatRepository.try_reserve_seat`: under the row lock taken by
`SELECT ... FOR UPDATE`, read the seat; if it is absent, not available, or
already reserved, return `False` with no write; otherwise set
`is_reserved = True`, `is_available = False`, commit, and return `True`.
Any exception is caught: `rollback()` and `False`. -/
def try_reserve_seat (st : SeatStore) (seat_id : Nat) (f : DbFault) :
    Bool × SeatStore :=
  match f with
  | .atSelect => (false, st)
  | _ =>
    match st seat_id with
    | none => (false, st)
    | some s =>
      if !s.is_available || s.is_reserved then (false, st)
      else
        match f with
        | .atCommit => (false, st)
        | _ => (true, setSeat st seat_id ⟨false, true⟩)

/-- The seat state-machine invariant from the spec: the two flags are
complementary, so the seat is either Free (`⟨true, false⟩`) or Held
(`⟨false, true⟩`). -/
def seatInv (s : Seat) : Prop :=
  s.is_reserved = !s.is_available

instance (s : Seat) : Decidable (seatInv s) := by
  unfold seatInv; infer_instance

/-- `DiscountService.DISCOUNT_RATES` (src/app/services/ticket_service.py):
child 50%, student 25%, pensioner 40%, none 0%. -/
def DISCOUNT_RATES : List (String × ℚ) :=
  [("child", 1/2), ("student", 1/4), ("pensioner", 2/5), ("none", 0)]

/-- `DiscountService.get_discount_percent`: dictionary `.get(key, 0.0)` —
unknown categories map to rate 0. -/
def get_discount_percent (discount_type : String) : ℚ :=
  (DISCOUNT_RATES.lookup discount_type).getD 0

/-- `DiscountService.calculate_final_price`: returns
`(final_price, discount_percent * 100)` where
`final_price = base_price - base_price * rate`. -/
def calculate_final_price (base_price : ℚ) (discount_type : String) : ℚ × ℚ :=
  let discount_percent := get_discount_percent discount_type
  let discount_amount := base_price * discount_percent
  (base_price - discount_amount, discount_percent * 100)

/-- The fields of a `Train` row used by the pricing and ticket paths. -/
structure Train where
  base_price : ℚ
deriving DecidableEq, Repr

/-- The fields of a `Wagon` row used by the pricing path. -/
structure Wagon where
  price_multiplier : ℚ
deriving DecidableEq, Repr

/-- `PriceCalculationResponse` (src/app/schemes/ticket_schemes.py). -/
structure PriceCalculationResponse where
  base_price : ℚ
  discount_percent : ℚ
  final_price : ℚ
  discount_type : String
deriving DecidableEq, Repr

/-- `TicketService.calculate_price`:
`base_price = train.base_price * wagon.price_multiplier`, then delegate to
`DiscountService.calculate_final_price`. -/
def calculate_price (train : Train) (wagon : Wagon) (discount_type : String) :
    PriceCalculationResponse :=
  let base_price := train.base_price * wagon.price_multiplier
  let r := calculate_final_price base_price discount_type
  { base_price := base_price
    discount_percent := r.2
    final_price := r.1
    discount_type := discount_type }

/-- The fields of a `Ticket` row used by the cancel path. -/
structure Ticket where
  seat_id : Nat
  passenger_email : String
deriving DecidableEq, Repr

/-- `TicketRepository.delete_ticket`: `DELETE FROM tickets WHERE id = tid`. -/
def ticket_delete (tst : Nat → Option Ticket) (ticket_id : Nat) :
    Nat → Option Ticket :=
  fun j => if j = ticket_id then none else tst j

/-- The stores the two modelled HTTP handlers touch: trains, wagons, seats,
tickets (each keyed by primary key) and users (id → email, the part of the
user row the handlers read). -/
structure AppState where
  trains : Nat → Option Train
  wagons : Nat → Option Wagon
  seats : SeatStore
  tickets : Nat → Option Ticket
  users : Nat → Option String

/-- The `raise HTTPException` branches of the modelled handlers, plus the
uncaught Python `AttributeError` (see the file comment). -/
inductive ApiError where
  | userNotFound
  | emailForbidden
  | trainNotFound
  | wagonNotFound
  | seatUnavailable
  | internalError
  | ticketNotFound
  | deleteForbidden
  | attributeError
deriving DecidableEq, Repr

/-- Request body `TicketCreate` (the fields the handler reads). -/
structure TicketCreate where
  train_id : Nat
  wagon_id : Nat
  seat_id : Nat
  passenger_email : String
  discount_type : String
deriving DecidableEq, Repr

/-- Faithful model of the handler `create_ticket`
(`POST /api/tickets/create`, src/app/api/tickets.py lines 239–294): look up
the user (404), check the e-mail (403), look up the train (404) and the wagon
(404), then evaluate `seat_service.try_reserve_seat(...)`.  `SeatService`
(src/app/services/ticket_service.py lines 90–131) has no attribute
`try_reserve_seat`, so that access raises `AttributeError` outside any
try/except: the handler fails there, with no seat or ticket write, on every
request that passes the four checks. -/
def create_ticket_endpoint (st : AppState) (user_id : Nat) (req : TicketCreate) :
    Except ApiError Ticket × AppState :=
  match st.users user_id with
  | none => (.error .userNotFound, st)
  | some email =>
    if req.passenger_email ≠ email then (.error .emailForbidden, st)
    else
      match st.trains req.train_id with
      | none => (.error .trainNotFound, st)
      | some _ =>
        match st.wagons req.wagon_id with
        | none => (.error .wagonNotFound, st)
        | some _ => (.error .attributeError, st)

/-- Faithful model of the handler `delete_ticket`
(`DELETE /api/tickets/delete/{ticket_id}`, src/app/api/tickets.py lines
330–354): look up the ticket (404 if absent); look up the user and require
`ticket.passenger_email == user.email` (403 otherwise); then release the
ticket's seat and only afterwards delete the ticket row. -/
def delete_ticket_endpoint (st : AppState) (user_id : Nat) (ticket_id : Nat) :
    Except ApiError Nat × AppState :=
  match st.tickets ticket_id with
  | none => (.error .ticketNotFound, st)
  | some t =>
    match st.users user_id with
    | none => (.error .deleteForbidden, st)
    | some email =>
      if t.passenger_email ≠ email then (.error .deleteForbidden, st)
      else
        let st1 := { st with seats := (release_seat st.seats t.seat_id).2 }
        let st2 := { st1 with tickets := ticket_delete st1.tickets ticket_id }
        (.ok ticket_id, st2)

/-- `n` sequential calls of `try_reserve_seat` on the same seat, collecting
the returned booleans.  Each call holds the row lock
(`SELECT ... FOR UPDATE`) for its whole read-check-write, so `N` concurrent
callers execute as some serial order of `N` such calls; all orders are
symmetric, so this sequence models any timing. -/
def run_try_reserves (st : SeatStore) (seat_id : Nat) :
    Nat → List Bool × SeatStore
  | 0 => ([], st)
  | n + 1 =>
    let r := try_reserve_seat st seat_id .ok
    let rest := run_try_reserves r.2 seat_id n
    (r.1 :: rest.1, rest.2)

/-- A one-seat store with seat 1 Free: used to instantiate theorems. -/
def seatStoreFree : SeatStore :=
  fun j => if j = 1 then some ⟨true, false⟩ else none

/-- A one-seat store with seat 1 Held: used to instantiate theorems. -/
def seatStoreHeld : SeatStore :=
  fun j => if j = 1 then some ⟨false, true⟩ else none

/-- A concrete application state: train 1, wagon 1, seat 1 Free, no tickets,
user 7 with e-mail `a@b.c`. -/
def demoStateFree : AppState :=
  { trains := fun j => if j = 1 then some ⟨2000⟩ else none
    wagons := fun j => if j = 1 then some ⟨3/2⟩ else none
    seats := seatStoreFree
    tickets := fun _ => none
    users := fun j => if j = 7 then some "a@b.c" else none }

/-- As `demoStateFree` but seat 1 is Held, and ticket 5 (seat 1, owned by
`a@b.c`) exists. -/
def demoStateHeld : AppState :=
  { trains := fun j => if j = 1 then some ⟨2000⟩ else none
    wagons := fun j => if j = 1 then some ⟨3/2⟩ else none
    seats := seatStoreHeld
    tickets := fun j => if j = 5 then some ⟨1, "a@b.c"⟩ else none
    users := fun j => if j = 7 then some "a@b.c" else none }

/-! ### Helper lemmas -/

theorem setSeat_get_same (st : SeatStore) (i : Nat) (s : Seat) :
    setSeat st i s i = some s := by
  simp [setSeat]

theorem setSeat_get_other (st : SeatStore) (i j : Nat) (s : Seat)
    (h : j ≠ i) : setSeat st i s j = st j := by
  simp [setSeat, h]

theorem setSeat_eq_self (st : SeatStore) (i : Nat) (s : Seat)
    (h : st i = some s) : setSeat st i s = st := by
  funext j
  by_cases hj : j = i
  · subst hj; simp [setSeat, h]
  · simp [setSeat, hj]

theorem setSeat_setSeat (st : SeatStore) (i : Nat) (a b : Seat) :
    setSeat (setSeat st i a) i b = setSeat st i b := by
  funext j
  by_cases hj : j = i <;> simp [setSeat, hj]

theorem try_reserve_seat_held (st : SeatStore) (i : Nat)
    (h : st i = some ⟨false, true⟩) :
    try_reserve_seat st i .ok = (false, st) := by
  simp [try_reserve_seat, h]

theorem run_try_reserves_stuck (st : SeatStore) (i : Nat)
    (h : st i = some ⟨false, true⟩) :
    ∀ n, run_try_reserves st i n = (List.replicate n false, st) := by
  intro n
  induction n with
  | zero => simp [run_try_reserves, List.replicate]
  | succ m ih =>
      simp [run_try_reserves, try_reserve_seat_held st i h, ih,
        List.replicate_succ]

theorem count_true_replicate_false (n : Nat) :
    (List.replicate n false).count true = 0 := by
  induction n with
  | zero => rfl
  | succ m ih => simp [List.replicate_succ, List.count_cons, ih]

theorem count_false_replicate_false (n : Nat) :
    (List.replicate n false).count false = n := by
  induction n with
  | zero => rfl
  | succ m ih => simp [List.replicate_succ, List.count_cons, ih]

theorem reserve_seat_snd (st : SeatStore) (i : Nat) :
    (reserve_seat st i).2 = st
    ∨ (reserve_seat st i).2 = setSeat st i ⟨false, true⟩ := by
  cases hx : st i <;> simp [reserve_seat, hx]

theorem release_seat_snd (st : SeatStore) (i : Nat) :
    (release_seat st i).2 = st
    ∨ (release_seat st i).2 = setSeat st i ⟨true, false⟩ := by
  cases hx : st i <;> simp [release_seat, hx]

theorem try_reserve_seat_snd (st : SeatStore) (i : Nat) (f : DbFault) :
    (try_reserve_seat st i f).2 = st
    ∨ (try_reserve_seat st i f).2 = setSeat st i ⟨false, true⟩ := by
  cases f with
  | atSelect => exact Or.inl rfl
  | atCommit =>
      cases hx : st i with
      | none => exact Or.inl (by simp [try_reserve_seat, hx])
      | some s0 => exact Or.inl (by simp [try_reserve_seat, hx])
  | ok =>
      cases hx : st i with
      | none => exact Or.inl (by simp [try_reserve_seat, hx])
      | some s0 =>
          by_cases hc : (!s0.is_available || s0.is_reserved) = true
          · exact Or.inl (by simp [try_reserve_seat, hx, hc])
          · exact Or.inr (by simp [try_reserve_seat, hx, hc])

theorem seatStoreFree_inv :
    ∀ k s, seatStoreFree k = some s → seatInv s := by
  intro k s hk
  unfold seatStoreFree at hk
  by_cases h : k = 1
  · subst h
    simp at hk
    subst hk
    decide
  · simp [h] at hk

/-! ### Claim theorems -/

/-- C2: `try_reserve_seat` returns `false` — not an error — when the seat is
absent, already reserved, or not available; on a Free seat it returns `true`
and the seat becomes Held (`is_available = false`, `is_reserved = true`). -/
theorem try_reserve_seat_spec (st : SeatStore) (i : Nat) :
    (st i = some ⟨true, false⟩ →
        try_reserve_seat st i .ok = (true, setSeat st i ⟨false, true⟩)
        ∧ (try_reserve_seat st i .ok).2 i = some ⟨false, true⟩)
    ∧ (st i = none → try_reserve_seat st i .ok = (false, st))
    ∧ (∀ s, st i = some s → s.is_reserved = true →
        try_reserve_seat st i .ok = (false, st))
    ∧ (∀ s, st i = some s → s.is_available = false →
        try_reserve_seat st i .ok = (false, st)) := by
  refine ⟨?_, ?_, ?_, ?_⟩
  · intro h
    constructor
    · simp [try_reserve_seat, h]
    · simp [try_reserve_seat, h, setSeat_get_same]
  · intro h
    simp [try_reserve_seat, h]
  · intro s h hr
    simp [try_reserve_seat, h, hr]
  · intro s h ha
    simp [try_reserve_seat, h, ha]

theorem try_reserve_seat_spec_witness :
    try_reserve_seat seatStoreFree 1 .ok
      = (true, setSeat seatStoreFree 1 ⟨false, true⟩) :=
  ((try_reserve_seat_spec seatStoreFree 1).1 rfl).1

/-- C3 counterexample: `update_seat_availability` writes `is_available`
alone; applied with `is_available = false` to a Free seat it produces the
state `⟨false, false⟩`, in which the two flags are not complementary. -/
theorem update_seat_availability_breaks_complementarity :
    seatInv ⟨true, false⟩
    ∧ (update_seat_availability seatStoreFree 1 false).2 1
        = some ⟨false, false⟩
    ∧ ¬ seatInv (⟨false, false⟩ : Seat) := by
  refine ⟨by decide, ?_, by decide⟩
  simp [update_seat_availability, seatStoreFree, setSeat_get_same]

/-- C3 (amended): every seat operation except `update_seat_availability` —
namely `reserve_seat`, `release_seat` and `try_reserve_seat` — updates the
two flags together and preserves the complementarity invariant
`is_reserved = !is_available` for every seat in the store;
`update_seat_availability` (which no code in the repository calls) sets
`is_available` alone and can break it. -/
theorem seat_ops_preserve_complementarity (st : SeatStore) (i : Nat)
    (f : DbFault) (hinv : ∀ k s, st k = some s → seatInv s) :
    (∀ j s, (reserve_seat st i).2 j = some s → seatInv s)
    ∧ (∀ j s, (release_seat st i).2 j = some s → seatInv s)
    ∧ (∀ j s, (try_reserve_seat st i f).2 j = some s → seatInv s) := by
  have hset : ∀ (a : Seat), seatInv a →
      ∀ j s, setSeat st i a j = some s → seatInv s := by
    intro a ha j s hj
    by_cases hji : j = i
    · subst hji
      rw [setSeat_get_same] at hj
      cases hj
      exact ha
    · rw [setSeat_get_other st i j a hji] at hj
      exact hinv j s hj
  refine ⟨?_, ?_, ?_⟩
  · intro j s hj
    rcases reserve_seat_snd st i with h2 | h2 <;> rw [h2] at hj
    · exact hinv j s hj
    · exact hset ⟨false, true⟩ (by decide) j s hj
  · intro j s hj
    rcases release_seat_snd st i with h2 | h2 <;> rw [h2] at hj
    · exact hinv j s hj
    · exact hset ⟨true, false⟩ (by decide) j s hj
  · intro j s hj
    rcases try_reserve_seat_snd st i f with h2 | h2 <;> rw [h2] at hj
    · exact hinv j s hj
    · exact hset ⟨false, true⟩ (by decide) j s hj

theorem seat_ops_preserve_complementarity_witness :
    seatInv (⟨false, true⟩ : Seat) :=
  (seat_ops_preserve_complementarity seatStoreFree 1 .ok
    seatStoreFree_inv).2.2 1 ⟨false, true⟩ rfl

/-- C4: `release_seat` is idempotent and unconditional: every existing seat
ends up Free (`is_available = true`, `is_reserved = false`) whatever its
prior state; releasing an already-Free seat changes nothing (and the model
is a total function, so no error is possible); and a second release equals a
single release. -/
theorem release_seat_spec (st : SeatStore) (i : Nat) :
    (∀ s, st i = some s →
        (release_seat st i).2 i = some ⟨true, false⟩
        ∧ (release_seat st i).1 = some ⟨true, false⟩)
    ∧ (st i = some ⟨true, false⟩ → (release_seat st i).2 = st)
    ∧ release_seat (release_seat st i).2 i = release_seat st i := by
  refine ⟨?_, ?_, ?_⟩
  · intro s h
    constructor <;> simp [release_seat, h, setSeat_get_same]
  · intro h
    simp [release_seat, h, setSeat_eq_self st i ⟨true, false⟩ h]
  · cases hx : st i with
    | none => simp [release_seat, hx]
    | some s0 =>
        have h1 : (release_seat st i).2 = setSeat st i ⟨true, false⟩ := by
          simp [release_seat, hx]
        rw [h1]
        simp [release_seat, hx, setSeat_get_same, setSeat_setSeat]

theorem release_seat_spec_witness :
    (release_seat seatStoreHeld 1).2 1 = some ⟨true, false⟩ :=
  ((release_seat_spec seatStoreHeld 1).1 ⟨false, true⟩ rfl).1

/-- C9: on a seat id absent from the store, `reserve_seat` and
`release_seat` return `none` (no seat), raise nothing, and leave the store
untouched. -/
theorem reserve_release_missing_seat (st : SeatStore) (i : Nat)
    (h : st i = none) :
    reserve_seat st i = (none, st) ∧ release_seat st i = (none, st) := by
  constructor <;> simp [reserve_seat, release_seat, h]

theorem reserve_release_missing_seat_witness :
    reserve_seat seatStoreFree 2 = (none, seatStoreFree) :=
  (reserve_release_missing_seat seatStoreFree 2 rfl).1

/-- C10: `try_reserve_seat` is total over its error branch: a database
exception (any `DbFault ≠ .ok`) is caught, the transaction is rolled back,
and the call returns `false` with the store unchanged; more generally every
`false` return leaves the store unchanged.  Totality of the Lean function
models that the Python `except Exception` clause never lets an exception
propagate to the caller. -/
theorem try_reserve_seat_fault_safe (st : SeatStore) (i : Nat) (f : DbFault) :
    ((try_reserve_seat st i f).1 = false → (try_reserve_seat st i f).2 = st)
    ∧ (f ≠ .ok → try_reserve_seat st i f = (false, st)) := by
  constructor
  · intro hb
    cases f with
    | atSelect => rfl
    | atCommit =>
        cases hx : st i with
        | none => simp [try_reserve_seat, hx]
        | some s0 => simp [try_reserve_seat, hx]
    | ok =>
        cases hx : st i with
        | none => simp [try_reserve_seat, hx]
        | some s0 =>
            by_cases hc : (!s0.is_available || s0.is_reserved) = true
            · simp [try_reserve_seat, hx, hc]
            · exfalso
              simp [try_reserve_seat, hx, hc] at hb
  · intro hf
    cases f with
    | ok => exact absurd rfl hf
    | atSelect => rfl
    | atCommit =>
        cases hx : st i with
        | none => simp [try_reserve_seat, hx]
        | some s0 => simp [try_reserve_seat, hx]

theorem try_reserve_seat_fault_safe_witness :
    try_reserve_seat seatStoreFree 1 .atCommit = (false, seatStoreFree) :=
  (try_reserve_seat_fault_safe seatStoreFree 1 .atCommit).2 (by decide)

/-- C5: the pricing computation returns
`base_price = trainBasePrice * wagonMultiplier`,
`final_price = base_price * (1 - rate)` and `discount_percent = rate * 100`,
with `rate` from the fixed table child = 1/2, student = 1/4,
pensioner = 2/5, none = 0, and every unknown category mapping to rate 0;
in particular base 2000 with multiplier 3/2 and discount `student` yields
base 3000, discount% 25, final 2250, and `none` leaves the final price equal
to the base price. -/
theorem pricing_spec :
    (∀ (t : Train) (w : Wagon) (d : String),
        calculate_price t w d
          = { base_price := t.base_price * w.price_multiplier
              discount_percent := get_discount_percent d * 100
              final_price :=
                t.base_price * w.price_multiplier * (1 - get_discount_percent d)
              discount_type := d })
    ∧ get_discount_percent "child" = 1/2
    ∧ get_discount_percent "student" = 1/4
    ∧ get_discount_percent "pensioner" = 2/5
    ∧ get_discount_percent "none" = 0
    ∧ (∀ d : String,
        d ≠ "child" → d ≠ "student" → d ≠ "pensioner" → d ≠ "none" →
        get_discount_percent d = 0)
    ∧ calculate_price ⟨2000⟩ ⟨3/2⟩ "student"
        = { base_price := 3000, discount_percent := 25, final_price := 2250,
            discount_type := "student" }
    ∧ (∀ (t : Train) (w : Wagon),
        (calculate_price t w "none").final_price
          = (calculate_price t w "none").base_price) := by
  have hnone : get_discount_percent "none" = 0 := by
    simp [get_discount_percent, DISCOUNT_RATES, List.lookup]
  have hstudent : get_discount_percent "student" = 1/4 := by
    simp [get_discount_percent, DISCOUNT_RATES, List.lookup]
  refine ⟨?_,
    by simp [get_discount_percent, DISCOUNT_RATES, List.lookup],
    hstudent,
    by simp [get_discount_percent, DISCOUNT_RATES, List.lookup],
    hnone, ?_,
    by norm_num [calculate_price, calculate_final_price, hstudent], ?_⟩
  · intro t w d
    have hf : t.base_price * w.price_multiplier
        - t.base_price * w.price_multiplier * get_discount_percent d
        = t.base_price * w.price_multiplier * (1 - get_discount_percent d) := by
      ring
    simp [calculate_price, calculate_final_price, hf]
  · intro d h1 h2 h3 h4
    have c1 : (d == "child") = false := beq_eq_false_iff_ne.mpr h1
    have c2 : (d == "student") = false := beq_eq_false_iff_ne.mpr h2
    have c3 : (d == "pensioner") = false := beq_eq_false_iff_ne.mpr h3
    have c4 : (d == "none") = false := beq_eq_false_iff_ne.mpr h4
    simp [get_discount_percent, DISCOUNT_RATES, List.lookup, c1, c2, c3, c4]
  · intro t w
    simp [calculate_price, calculate_final_price, hnone]

theorem pricing_spec_witness :
    get_discount_percent "vip" = 0 :=
  pricing_spec.2.2.2.2.2.1 "vip" (by decide) (by decide) (by decide)
    (by decide)

/-- C8: exclusivity of the seat hold.  `SELECT ... FOR UPDATE` makes each
`try_reserve_seat` call hold the seat-row lock for its whole
read-check-write, so N concurrent calls on one seat execute as N serial
calls (all serial orders are symmetric here).  Starting from a Free seat,
the serial sequence returns exactly one `true` and N − 1 `false`, and the
seat ends Held, never double-held. -/
theorem try_reserve_exclusivity (st : SeatStore) (i : Nat) (n : Nat)
    (h : st i = some ⟨true, false⟩) :
    (run_try_reserves st i (n + 1)).1 = true :: List.replicate n false
    ∧ (run_try_reserves st i (n + 1)).1.count true = 1
    ∧ (run_try_reserves st i (n + 1)).1.count false = n
    ∧ (run_try_reserves st i (n + 1)).2 i = some ⟨false, true⟩ := by
  have hfirst : try_reserve_seat st i .ok
      = (true, setSeat st i ⟨false, true⟩) := by
    simp [try_reserve_seat, h]
  have hheld : setSeat st i ⟨false, true⟩ i = some ⟨false, true⟩ :=
    setSeat_get_same st i _
  have hrun : run_try_reserves st i (n + 1)
      = (true :: List.replicate n false, setSeat st i ⟨false, true⟩) := by
    simp [run_try_reserves, hfirst,
      run_try_reserves_stuck (setSeat st i ⟨false, true⟩) i hheld n]
  rw [hrun]
  refine ⟨rfl, ?_, ?_, hheld⟩
  · simp [List.count_cons, count_true_replicate_false]
  · simp [List.count_cons, count_false_replicate_false]

theorem try_reserve_exclusivity_witness :
    (run_try_reserves seatStoreFree 1 3).1 = true :: List.replicate 2 false :=
  (try_reserve_exclusivity seatStoreFree 1 2 rfl).1

/-- C7: the cancel handler fails with `ticketNotFound` and changes no state
when the ticket is absent; when the ticket exists and the requester owns it,
it releases the ticket's seat and deletes the ticket row, and the final
state is the deletion applied to the state in which the seat was already
released — release strictly precedes delete (the release acts on the store
that still holds the ticket). -/
theorem delete_ticket_spec (st : AppState) (uid tid : Nat) :
    (st.tickets tid = none →
        delete_ticket_endpoint st uid tid = (.error .ticketNotFound, st))
    ∧ (∀ t email, st.tickets tid = some t → st.users uid = some email →
        t.passenger_email = email →
        delete_ticket_endpoint st uid tid
          = (.ok tid,
             { st with
                 seats := (release_seat st.seats t.seat_id).2,
                 tickets := ticket_delete st.tickets tid })
        ∧ (∀ s, st.seats t.seat_id = some s →
            (release_seat st.seats t.seat_id).2 t.seat_id
              = some ⟨true, false⟩)
        ∧ ticket_delete st.tickets tid tid = none) := by
  constructor
  · intro h
    simp [delete_ticket_endpoint, h]
  · intro t email ht hu he
    refine ⟨?_, ?_, ?_⟩
    · simp [delete_ticket_endpoint, ht, hu, he]
    · intro s hs
      simp [release_seat, hs, setSeat_get_same]
    · simp [ticket_delete]

theorem delete_ticket_spec_witness :
    delete_ticket_endpoint demoStateHeld 7 5
      = (.ok 5,
         { demoStateHeld with
             seats := (release_seat demoStateHeld.seats 1).2,
             tickets := ticket_delete demoStateHeld.tickets 5 }) :=
  ((delete_ticket_spec demoStateHeld 7 5).2 ⟨1, "a@b.c"⟩ "a@b.c"
    rfl rfl rfl).1

/-- C1 (code-bug evidence): on a request that passes the user, e-mail, train
and wagon checks, with the target seat Free and no tickets yet, the create
handler fails with the uncaught `AttributeError` (`SeatService` has no
`try_reserve_seat`) before any seat hold: the state is returned unchanged,
so the hold/compensation protocol of the claim is never exercised by any
execution. -/
theorem create_ticket_hold_and_compensation_unreachable :
    create_ticket_endpoint demoStateFree 7 ⟨1, 1, 1, "a@b.c", "none"⟩
      = (.error .attributeError, demoStateFree)
    ∧ demoStateFree.seats 1 = some ⟨true, false⟩
    ∧ (∀ j, demoStateFree.tickets j = none) :=
  ⟨rfl, rfl, fun _ => rfl⟩

/-- C6 (code-bug evidence): on a request whose target seat is already Held —
where the claim requires `TryReserve` to be called, return `false`, and the
handler to answer `seatUnavailable` — the handler instead fails with the
uncaught `AttributeError`, which is a different error from
`seatUnavailable`. -/
theorem create_ticket_held_seat_attribute_error :
    create_ticket_endpoint demoStateHeld 7 ⟨1, 1, 1, "a@b.c", "none"⟩
      = (.error .attributeError, demoStateHeld)
    ∧ demoStateHeld.seats 1 = some ⟨false, true⟩
    ∧ ApiError.attributeError ≠ ApiError.seatUnavailable :=
  ⟨rfl, rfl, by decide⟩

end TrainTickets
